import Mathlib

/-!
Verification of the ZComu social-feed client core: the post normalizers
(`hydratePost` in the feed-page hook, `toFeedPost` in `post-serializers.ts`),
the composer publish path, the optimistic like toggle, and the attachment
upload pipeline of `use-feed-page.ts`.  TypeScript values that may be
`null`/`undefined` are embedded as `Option`; JS numbers occurring in counters
are embedded as `Int` (no overflow is relevant at feed scale, and the
optimistic decrement can go below zero, which `Int` represents faithfully).
-/

namespace ZComu

/-- Profile summary embedded in posts and comments
(`ProfileSummary` in `types/feed.ts`). -/
structure ProfileSummary where
  id : String
  username : String
  display_name : Option String
  avatar_url : Option String
  is_verified : Bool
deriving DecidableEq, Repr

/-- Like row projection (`LikeSummary` in `types/feed.ts`). -/
structure LikeSummary where
  id : String
  user_id : String
  reaction_type : Option String
  created_at : String
deriving DecidableEq, Repr

/-- Comment with its denormalized author (`FeedComment` in `types/feed.ts`). -/
structure FeedComment where
  id : String
  post_id : String
  user_id : String
  text : String
  parent_id : Option String
  created_at : String
  profiles : Option ProfileSummary
deriving DecidableEq, Repr

/-- Media row attached to a post (`PostMediaRow` columns selected by
`POST_WITH_RELATIONS`). -/
structure PostMediaRow where
  id : String
  file_url : String
  file_type : Option String
  file_size : Option Int
  storage_bucket : Option String
  created_at : String
deriving DecidableEq, Repr

/-- Normalized post held by the feed store (`FeedPost` in `types/feed.ts`):
all arrays materialized, counters and viewer-relative flags filled in. -/
structure FeedPost where
  id : String
  user_id : String
  content : Option String
  visibility : Option String
  edited : Option Bool
  created_at : String
  updated_at : String
  profiles : Option ProfileSummary
  post_media : List PostMediaRow
  likes : List LikeSummary
  comments : List FeedComment
  likes_count : Int
  comments_count : Int
  has_liked : Bool
  is_owner : Bool
deriving DecidableEq, Repr

/-- Raw server payload consumed by the client-side normalizer
(`ApiPost` in `types/feed.d.ts`, whose arrays, counters and viewer flags are
all optional; `types/feed.ts` instead aliases `ApiPost = FeedPost`, in which
the counters and `is_owner` are present — the optional fields here cover both
declarations, so a payload may or may not carry each of them). -/
structure ApiPost where
  id : String
  user_id : String
  content : Option String
  visibility : Option String
  edited : Option Bool
  created_at : String
  updated_at : String
  profiles : Option ProfileSummary
  post_media : Option (List PostMediaRow)
  likes : Option (List LikeSummary)
  comments : Option (List FeedComment)
  likes_count : Option Int
  comments_count : Option Int
  has_liked : Option Bool
  is_owner : Option Bool
deriving DecidableEq, Repr

/-- Raw database row consumed by the server-side serializer
(`RawPost = PostsRow & {profiles, post_media, likes, comments}` in
`post-serializers.ts`).  The relation arrays are nullable exactly as in the
TypeScript type.  Modelled from the spec: `PostsRow` comes from the generated
`database.types.ts`, which is not in the repository; its scalar columns are
taken from the spec's Post data model (id, author reference, nullable text
content, visibility, edited flag, created/updated timestamps).  The optional
`likes_count`/`comments_count` fields model a payload that carries
server-supplied counters (the claims and §4.1 of the spec quantify over such
payloads; a JS object reaching `toFeedPost` may carry them, and the spread
`{...raw, ...}` in the source propagates any it carries). -/
structure RawPost where
  id : String
  user_id : String
  content : Option String
  visibility : String
  edited : Bool
  created_at : String
  updated_at : String
  likes_count : Option Int
  comments_count : Option Int
  profiles : Option ProfileSummary
  post_media : Option (List PostMediaRow)
  likes : Option (List LikeSummary)
  comments : Option (List FeedComment)
deriving DecidableEq, Repr

/-- Embeds `normalizeProfile` in `post-serializers.ts`: identity projection on the
five summary fields, `null` preserved. -/
def normalizeProfile (profile : Option ProfileSummary) : Option ProfileSummary :=
  match profile with
  | none => none
  | some p =>
    some { id := p.id, username := p.username, display_name := p.display_name,
           avatar_url := p.avatar_url, is_verified := p.is_verified }

/-- Embeds `normalizeLikes` in `post-serializers.ts`: a missing array becomes `[]`,
a present one is mapped to the four-field projection. -/
def normalizeLikes (likes : Option (List LikeSummary)) : List LikeSummary :=
  match likes with
  | none => []
  | some ls =>
    ls.map fun l =>
      { id := l.id, user_id := l.user_id, reaction_type := l.reaction_type,
        created_at := l.created_at }

/-- Embeds `normalizeComments` in `post-serializers.ts`: a missing array becomes
`[]`, a present one keeps every comment with its profile normalized. -/
def normalizeComments (comments : Option (List FeedComment)) : List FeedComment :=
  match comments with
  | none => []
  | some cs => cs.map fun c => { c with profiles := normalizeProfile c.profiles }

/-- Embeds `toFeedPost(raw, currentUserId)` in `post-serializers.ts`: spreads the raw
row, materializes the relation arrays, and then unconditionally sets
`likes_count`/`comments_count` to the array lengths, `has_liked` to a scan of
the likes for the viewer, and `is_owner` to an author/viewer comparison. -/
def toFeedPost (raw : RawPost) (currentUserId : String) : FeedPost :=
  let postMedia := match raw.post_media with | none => [] | some m => m
  let likes := normalizeLikes raw.likes
  let comments := normalizeComments raw.comments
  { id := raw.id, user_id := raw.user_id, content := raw.content,
    visibility := some raw.visibility, edited := some raw.edited,
    created_at := raw.created_at, updated_at := raw.updated_at,
    profiles := normalizeProfile raw.profiles,
    post_media := postMedia,
    likes := likes,
    comments := comments,
    likes_count := (likes.length : Int),
    comments_count := (comments.length : Int),
    has_liked := likes.any fun l => l.user_id = currentUserId,
    is_owner := raw.user_id = currentUserId }

/-- Embeds `hydratePost(raw, userId)` in the feed-page hook: materializes arrays,
uses the server-supplied `likes_count`/`comments_count`/`has_liked` when the
payload carries them (`typeof raw.likes_count === "number"` etc.), otherwise
derives them; `is_owner` is always recomputed as `raw.user_id === userId`. -/
def hydratePost (raw : ApiPost) (userId : Option String) : FeedPost :=
  let likes := match raw.likes with | none => [] | some ls => ls
  let comments := match raw.comments with | none => [] | some cs => cs
  let likesCount : Int :=
    match raw.likes_count with | some n => n | none => (likes.length : Int)
  let commentsCount : Int :=
    match raw.comments_count with | some n => n | none => (comments.length : Int)
  let hasLiked : Bool :=
    match raw.has_liked with
    | some b => b
    | none => likes.any fun l => some l.user_id = userId
  { id := raw.id, user_id := raw.user_id, content := raw.content,
    visibility := raw.visibility, edited := raw.edited,
    created_at := raw.created_at, updated_at := raw.updated_at,
    profiles := raw.profiles,
    post_media := match raw.post_media with | none => [] | some m => m,
    likes := likes,
    comments := comments,
    likes_count := likesCount,
    comments_count := commentsCount,
    has_liked := hasLiked,
    is_owner := some raw.user_id = userId }

/-- Status of a locally tracked attachment
(`"uploading" | "uploaded" | "error"` in `types/feed.ts`). -/
inductive AttachmentStatus where
  | uploading
  | uploaded
  | error
deriving DecidableEq, Repr

/-- Remote media descriptor: the shape stored in `attachment.remote` on upload
success and sent verbatim as one entry of the publish body's `media` array. -/
structure MediaRef where
  file_url : String
  file_type : Option String
  file_size : Option Int
  storage_bucket : Option String
deriving DecidableEq, Repr

/-- Locally tracked attachment (`Attachment` in `types/feed.ts`); the browser
`File` handle is represented by its name, MIME type and size, which are the
only parts of it the hook reads. -/
structure Attachment where
  id : String
  fileName : String
  fileType : String
  fileSize : Int
  previewUrl : String
  status : AttachmentStatus
  remote : Option MediaRef
  error : Option String
deriving DecidableEq, Repr

/-- The feed page's React state, as held by `useFeedPage`. -/
structure FeedPageState where
  posts : List FeedPost
  isFetching : Bool
  fetchError : Option String
  content : String
  visibility : String
  attachments : List Attachment
  composerError : Option String
  isPublishing : Bool
deriving DecidableEq, Repr

/-- Outcome of one awaited `apiFetch` call: the parsed response on success,
or the thrown error's human-readable message on failure. -/
inductive ApiResult (α : Type) where
  | ok (value : α)
  | err (msg : String)
deriving DecidableEq, Repr

/-- Embeds the JavaScript `String.prototype.trim` applied to the draft text:
removes leading and trailing whitespace. -/
def jsTrim (s : String) : String :=
  ⟨((s.data.dropWhile Char.isWhitespace).reverse.dropWhile Char.isWhitespace).reverse⟩

/-- Body of the `POST /api/posts` request built by `handlePublish`. -/
structure PublishBody where
  content : String
  visibility : String
  media : List MediaRef
deriving DecidableEq, Repr

/-- The `media` array of the publish body: attachments with a `remote`
descriptor are kept and projected to their four remote fields
(`attachments.filter(a => a.remote).map(...)`). -/
def publishMedia (attachments : List Attachment) : List MediaRef :=
  attachments.filterMap fun a => a.remote

/-- Embeds `loadPosts` in the feed-page hook: fetches `/api/posts`, hydrates every
returned payload and replaces the post sequence wholesale; on failure it
records the fetch error and leaves the sequence unchanged.  `response` is the
settled result of the awaited request. -/
def loadPosts (response : ApiResult (List ApiPost)) (userId : Option String)
    (s : FeedPageState) : FeedPageState :=
  match response with
  | .ok rawPosts =>
    { s with posts := rawPosts.map fun p => hydratePost p userId,
             fetchError := none, isFetching := false }
  | .err msg =>
    { s with fetchError := some msg, isFetching := false }

/-- Embeds `handlePublish` in the feed-page hook.  Returns the final state together
with the list of publish requests issued (empty when the call is rejected by
a local validation guard, so an empty list means the transport adapter was
never invoked).  `server` is the settled result of the awaited
`POST /api/posts` request, consulted only when a request is issued. -/
def handlePublish (server : ApiResult ApiPost) (userId : Option String)
    (s : FeedPageState) : FeedPageState × List PublishBody :=
  if (s.attachments.find? fun a => a.status ≠ AttachmentStatus.uploaded).isSome then
    ({ s with
        composerError := some "Please wait for all media to finish uploading." }, [])
  else if jsTrim s.content = "" ∧ s.attachments.length = 0 then
    ({ s with
        composerError := some "Write something or attach media before posting." }, [])
  else
    match server with
    | .ok post =>
      ({ s with posts := hydratePost post userId :: s.posts,
                content := "", attachments := [], visibility := "public",
                composerError := none, isPublishing := false },
       [{ content := jsTrim s.content, visibility := s.visibility,
          media := publishMedia s.attachments }])
    | .err msg =>
      ({ s with composerError := some msg, isPublishing := false },
       [{ content := jsTrim s.content, visibility := s.visibility,
          media := publishMedia s.attachments }])

/-- Response of `POST`/`DELETE /api/posts/{id}/likes`. -/
structure LikeResponse where
  likes_count : Int
  has_liked : Bool
  likes : List LikeSummary
deriving DecidableEq, Repr

/-- The optimistic step of `handleToggleLike`: the first `setPosts`, applied
synchronously before the request is issued.  The matching post's `has_liked`
is flipped and its `likes_count` adjusted by ±1; every other post is
returned unchanged. -/
def optimisticToggle (postId : String) (hasLiked : Bool)
    (posts : List FeedPost) : List FeedPost :=
  posts.map fun post =>
    if post.id = postId then
      { post with has_liked := !hasLiked,
                  likes_count := post.likes_count + (if hasLiked then -1 else 1) }
    else post

/-- The reconciliation step of `handleToggleLike` on request success: the
matching post's `has_liked`, `likes_count` and `likes` are overwritten with
the server's authoritative values. -/
def reconcileLike (postId : String) (response : LikeResponse)
    (posts : List FeedPost) : List FeedPost :=
  posts.map fun post =>
    if post.id = postId then
      { post with has_liked := response.has_liked,
                  likes_count := response.likes_count,
                  likes := response.likes }
    else post

/-- Observable steps of one `handleToggleLike` run: local state updates
(`setPosts`) interleaved with the network request to the likes endpoint. -/
inductive LikeEvent where
  | setPosts (posts : List FeedPost)
  | request (postId : String) (method : String)
deriving DecidableEq, Repr

/-- Embeds `handleToggleLike(postId, hasLiked)` in the feed-page hook: applies the
optimistic flip, issues `DELETE` (when already liked) or `POST` to the likes
endpoint, then either reconciles with the server response or, on failure,
reloads the whole feed.  Returns the final state and the ordered event
trace.  `server` is the settled like request, `reload` the settled
`/api/posts` fetch used only on the failure path. -/
def handleToggleLike (postId : String) (hasLiked : Bool)
    (server : ApiResult LikeResponse) (reload : ApiResult (List ApiPost))
    (userId : Option String) (s : FeedPageState) :
    FeedPageState × List LikeEvent :=
  let optimistic := optimisticToggle postId hasLiked s.posts
  let s1 := { s with posts := optimistic }
  let method := if hasLiked then "DELETE" else "POST"
  match server with
  | .ok response =>
    let reconciled := reconcileLike postId response s1.posts
    ({ s1 with posts := reconciled },
     [.setPosts optimistic, .request postId method, .setPosts reconciled])
  | .err _ =>
    (loadPosts reload userId s1,
     [.setPosts optimistic, .request postId method])

/-- A file of a selection; the hook reads only its name, MIME type and
size. -/
structure SelectedFile where
  name : String
  fileType : String
  size : Int
deriving DecidableEq, Repr

/-- Response of `POST /api/storage/upload-url`. -/
structure UploadMeta where
  upload_url : String
  public_url : Option String
  bucket : String
  file_url : String
deriving DecidableEq, Repr

/-- Settled outcome of one file's two awaited network steps inside the upload
loop: the signed-url request threw, the binary `PUT` came back non-ok (the
loop then throws `Error("Upload failed")` into its own catch), or both
succeeded. -/
inductive UploadOutcome where
  | metaFailure (msg : String)
  | transferFailure (meta : UploadMeta)
  | success (meta : UploadMeta)
deriving DecidableEq, Repr

/-- One iteration of the upload loop in `handleFileSelect`: the attachment is
created with status `uploading`, then settled by the `try/catch` — on success
status `uploaded` with the remote descriptor built from the upload metadata,
on any failure status `error` with the caught message; the catch never
rethrows, so the loop continues with the next file. -/
def uploadFile (file : SelectedFile) (id previewUrl : String)
    (outcome : UploadOutcome) : Attachment :=
  let att : Attachment :=
    { id := id, fileName := file.name, fileType := file.fileType,
      fileSize := file.size, previewUrl := previewUrl,
      status := AttachmentStatus.uploading, remote := none, error := none }
  match outcome with
  | .success meta =>
    { att with
        status := AttachmentStatus.uploaded,
        remote := some { file_url := meta.file_url,
                         file_type := some file.fileType,
                         file_size := some file.size,
                         storage_bucket := some meta.bucket } }
  | .transferFailure _ =>
    { att with status := AttachmentStatus.error, error := some "Upload failed" }
  | .metaFailure msg =>
    { att with status := AttachmentStatus.error, error := some msg }

/-- Network requests issued by the upload loop for one file. -/
inductive UploadEvent where
  | uploadUrlRequest (fileName : String) (fileType : String) (fileSize : Int)
  | binaryPut (uploadUrl : String)
deriving DecidableEq, Repr

/-- The requests one loop iteration issues, in order: the signed-url request,
then — unless that request already failed — the binary `PUT`. -/
def uploadEvents (file : SelectedFile) (outcome : UploadOutcome) :
    List UploadEvent :=
  match outcome with
  | .metaFailure _ =>
    [.uploadUrlRequest file.name file.fileType file.size]
  | .transferFailure meta =>
    [.uploadUrlRequest file.name file.fileType file.size,
     .binaryPut meta.upload_url]
  | .success meta =>
    [.uploadUrlRequest file.name file.fileType file.size,
     .binaryPut meta.upload_url]

/-- Embeds `handleFileSelect` in the feed-page hook: for an empty selection nothing
happens; otherwise the loop uploads the files one after the other (each
iteration awaits both network steps before the next file starts), collecting
the settled attachments into `newAttachments`, and only after the loop
appends the whole batch to the tracked attachments with a single state
update.  `ids`/`previews` supply the client-generated id and preview URL of
the i-th file, `outcomes` the settled network outcome of its upload.  The
returned event list is the full network trace of the call, in issue order. -/
def handleFileSelect (files : List SelectedFile) (ids previews : Nat → String)
    (outcomes : Nat → UploadOutcome) (s : FeedPageState) :
    FeedPageState × List UploadEvent :=
  if files.length = 0 then (s, [])
  else
    ({ s with
        attachments := s.attachments ++ files.enum.map fun fi =>
          uploadFile fi.2 (ids fi.1) (previews fi.1) (outcomes fi.1) },
     (files.enum.map fun fi => uploadEvents fi.2 (outcomes fi.1)).flatten)

/-- Embeds `removeAttachment` in the feed-page hook: drops the attachment with the
given id from the tracked set, whatever its state. -/
def removeAttachment (id : String) (s : FeedPageState) : FeedPageState :=
  { s with attachments := s.attachments.filter fun a => a.id ≠ id }

/-! ## Concrete values used in the closed evaluations below. -/

/-- A concrete normalized post: id `p1`, author `u1`, no likes or comments. -/
def samplePost : FeedPost :=
  { id := "p1", user_id := "u1", content := some "hello",
    visibility := some "public", edited := some false,
    created_at := "t0", updated_at := "t0", profiles := none,
    post_media := [], likes := [], comments := [],
    likes_count := 0, comments_count := 0, has_liked := false,
    is_owner := false }

/-- A concrete raw database row carrying server-supplied counters (5 likes,
4 comments) together with empty relation arrays. -/
def rawRowWithCounters : RawPost :=
  { id := "p1", user_id := "u1", content := some "hello",
    visibility := "public", edited := false,
    created_at := "t0", updated_at := "t0",
    likes_count := some 5, comments_count := some 4,
    profiles := none, post_media := some [], likes := some [],
    comments := some [] }

/-- A concrete attachment that finished in the `error` state. -/
def erroredAttachment : Attachment :=
  { id := "a1", fileName := "x.png", fileType := "image/png", fileSize := 10,
    previewUrl := "blob:1", status := AttachmentStatus.error,
    remote := none, error := some "Upload failed" }

/-- A concrete composer state holding draft text, `friends` visibility and
one errored attachment. -/
def draftWithErroredAttachment : FeedPageState :=
  { posts := [], isFetching := false, fetchError := none,
    content := "hi", visibility := "friends",
    attachments := [erroredAttachment], composerError := none,
    isPublishing := false }

/-- A concrete feed state holding one post and an empty composer draft. -/
def sampleState : FeedPageState :=
  { posts := [samplePost], isFetching := false, fetchError := none,
    content := "", visibility := "public", attachments := [],
    composerError := none, isPublishing := false }

/-- A concrete server response to a like request, whose count 7 differs from
any local ±1 adjustment of `samplePost`. -/
def sampleLikeResponse : LikeResponse :=
  { likes_count := 7, has_liked := true,
    likes := [{ id := "l1", user_id := "u1", reaction_type := some "like",
                created_at := "t1" }] }

/-- A concrete two-file selection. -/
def sampleFiles : List SelectedFile :=
  [{ name := "a.png", fileType := "image/png", size := 3 },
   { name := "b.png", fileType := "image/png", size := 4 }]

/-- Client-generated ids for the sample selection. -/
def sampleIds (n : Nat) : String := "id" ++ toString n

/-- Preview URLs for the sample selection. -/
def samplePreviews (n : Nat) : String := "blob:" ++ toString n

/-- Concrete upload outcomes: the first file's signed-url request fails, the
second file uploads successfully. -/
def sampleOutcomes (n : Nat) : UploadOutcome :=
  if n = 0 then UploadOutcome.metaFailure "boom"
  else UploadOutcome.success
    { upload_url := "https://u/2", public_url := none, bucket := "media",
      file_url := "https://f/2" }

/-! ## C1: counter policy of the two normalization paths. -/

/-- C1 (counterexample): the server-side `toFeedPost` does not use a
server-supplied counter.  On a raw row carrying `likes_count = 5` and
`comments_count = 4` with empty relation arrays, the normalized post's
counters are 0, not the supplied 5 and 4 — refuting the claim that every
normalization path uses the server-supplied counter when the payload
carries one. -/
theorem toFeedPost_drops_server_counters :
    rawRowWithCounters.likes_count = some 5 ∧
    rawRowWithCounters.comments_count = some 4 ∧
    (toFeedPost rawRowWithCounters "u2").likes_count = 0 ∧
    (toFeedPost rawRowWithCounters "u2").likes_count ≠ 5 ∧
    (toFeedPost rawRowWithCounters "u2").comments_count = 0 ∧
    (toFeedPost rawRowWithCounters "u2").comments_count ≠ 4 := by
  refine ⟨rfl, rfl, rfl, by decide, rfl, by decide⟩

/-- C1 (amended): the two normalization paths follow different counter
policies.  The client-side `hydratePost` sets `likes_count` (resp.
`comments_count`) to the server-supplied counter when the payload carries
one and otherwise to the length of the materialized likes (resp. comments)
array, while the server-side `toFeedPost` always recomputes both counters
as the lengths of the normalized arrays, ignoring any counter the payload
carries. -/
theorem normalizer_counter_policies (raw : ApiPost) (uid : Option String)
    (row : RawPost) (vid : String) :
    (hydratePost raw uid).likes_count
        = (raw.likes_count.getD ((raw.likes.getD []).length : Int)) ∧
    (hydratePost raw uid).comments_count
        = (raw.comments_count.getD ((raw.comments.getD []).length : Int)) ∧
    (toFeedPost row vid).likes_count = ((normalizeLikes row.likes).length : Int) ∧
    (toFeedPost row vid).comments_count
        = ((normalizeComments row.comments).length : Int) := by
  obtain ⟨_, _, _, _, _, _, _, _, _, lk, cm, lc, cc, _, _⟩ := raw
  refine ⟨?_, ?_, rfl, rfl⟩
  · cases lc <;> cases lk <;> rfl
  · cases cc <;> cases cm <;> rfl

/-! ## C7: `is_owner` is always recomputed locally. -/

/-- C7: on both normalization paths, the normalized post's `is_owner` holds
exactly when the payload's author id equals the viewer id, and any
`is_owner` value the server payload carries is ignored (replacing it leaves
the normalizer's output unchanged). -/
theorem is_owner_recomputed_locally (raw : ApiPost) (uid : Option String)
    (b : Option Bool) (row : RawPost) (vid : String) :
    ((hydratePost raw uid).is_owner = true ↔ some raw.user_id = uid) ∧
    hydratePost { raw with is_owner := b } uid = hydratePost raw uid ∧
    ((toFeedPost row vid).is_owner = true ↔ row.user_id = vid) := by
  refine ⟨?_, rfl, ?_⟩
  · simp [hydratePost]
  · simp [toFeedPost]

/-! ## C2: publish is rejected while media are not ready. -/

/-- C2 (counterexample): the local validation error for unready media is not
the message "media not ready".  On a concrete draft holding one errored
attachment, `handlePublish` sets the composer error to "Please wait for all
media to finish uploading." instead. -/
theorem publish_unready_message_differs :
    (handlePublish (ApiResult.err "down") none draftWithErroredAttachment).1.composerError
        ≠ some "media not ready" ∧
    (handlePublish (ApiResult.err "down") none draftWithErroredAttachment).1.composerError
        = some "Please wait for all media to finish uploading." := by
  refine ⟨by decide, by decide⟩

/-- C2 (amended): whenever some attachment has a status other than
`uploaded`, `handlePublish` rejects locally with the validation message
"Please wait for all media to finish uploading.", issues no network request,
and leaves the draft text, attachments and visibility unchanged. -/
theorem publish_unready_media_rejected (s : FeedPageState) (uid : Option String)
    (server : ApiResult ApiPost) (a : Attachment) (ha : a ∈ s.attachments)
    (hst : a.status ≠ AttachmentStatus.uploaded) :
    (handlePublish server uid s).2 = [] ∧
    (handlePublish server uid s).1.composerError
        = some "Please wait for all media to finish uploading." ∧
    (handlePublish server uid s).1.content = s.content ∧
    (handlePublish server uid s).1.attachments = s.attachments ∧
    (handlePublish server uid s).1.visibility = s.visibility := by
  have hex : ∃ x ∈ s.attachments, ¬x.status = AttachmentStatus.uploaded :=
    ⟨a, ha, hst⟩
  simp [handlePublish, hex]

/-- C2 (witness): the amended rejection evaluated on the concrete draft with
one errored attachment. -/
theorem publish_unready_media_rejected_witness :
    (handlePublish (ApiResult.err "down") none draftWithErroredAttachment).2 = [] ∧
    (handlePublish (ApiResult.err "down") none draftWithErroredAttachment).1.composerError
        = some "Please wait for all media to finish uploading." ∧
    (handlePublish (ApiResult.err "down") none draftWithErroredAttachment).1.content
        = draftWithErroredAttachment.content ∧
    (handlePublish (ApiResult.err "down") none draftWithErroredAttachment).1.attachments
        = draftWithErroredAttachment.attachments ∧
    (handlePublish (ApiResult.err "down") none draftWithErroredAttachment).1.visibility
        = draftWithErroredAttachment.visibility :=
  publish_unready_media_rejected draftWithErroredAttachment none
    (ApiResult.err "down") erroredAttachment (by decide) (by decide)

/-! ## C3: publish commits only on confirmed success. -/

/-- C3: when the publish request fails, the post sequence and the whole
draft (text, attachments, visibility) are preserved exactly; and for any
settled request, a new post is prepended only when the server confirmed
success, in which case it is the hydrated server-returned post. -/
theorem publish_commits_only_on_success (s : FeedPageState) (uid : Option String)
    (msg : String) (server : ApiResult ApiPost) :
    (handlePublish (ApiResult.err msg) uid s).1.posts = s.posts ∧
    (handlePublish (ApiResult.err msg) uid s).1.content = s.content ∧
    (handlePublish (ApiResult.err msg) uid s).1.attachments = s.attachments ∧
    (handlePublish (ApiResult.err msg) uid s).1.visibility = s.visibility ∧
    ((handlePublish server uid s).1.posts = s.posts ∨
      ∃ p, server = ApiResult.ok p ∧
        (handlePublish server uid s).1.posts = hydratePost p uid :: s.posts) := by
  refine ⟨?_, ?_, ?_, ?_, ?_⟩
  · unfold handlePublish; split_ifs <;> rfl
  · unfold handlePublish; split_ifs <;> rfl
  · unfold handlePublish; split_ifs <;> rfl
  · unfold handlePublish; split_ifs <;> rfl
  · cases server with
    | ok p =>
      unfold handlePublish
      split_ifs
      · exact Or.inl rfl
      · exact Or.inl rfl
      · exact Or.inr ⟨p, rfl, rfl⟩
    | err m =>
      unfold handlePublish
      split_ifs <;> exact Or.inl rfl

/-! ## C6: empty draft with no uploaded media never reaches the network. -/

/-- A concrete fully empty composer state. -/
def emptyDraftState : FeedPageState :=
  { posts := [], isFetching := false, fetchError := none,
    content := "", visibility := "public", attachments := [],
    composerError := none, isPublishing := false }

/-- C6: when the trimmed draft text is empty and no attachment has status
`uploaded`, `handlePublish` issues no network request at all and rejects
locally with a composer error. -/
theorem publish_empty_draft_no_request (s : FeedPageState) (uid : Option String)
    (server : ApiResult ApiPost) (htext : jsTrim s.content = "")
    (hatt : ∀ a ∈ s.attachments, a.status ≠ AttachmentStatus.uploaded) :
    (handlePublish server uid s).2 = [] ∧
    (handlePublish server uid s).1.composerError.isSome = true := by
  by_cases hex : ∃ x ∈ s.attachments, ¬x.status = AttachmentStatus.uploaded
  · simp [handlePublish, hex]
  · have hempty : s.attachments = [] := by
      cases hl : s.attachments with
      | nil => rfl
      | cons a rest =>
        exfalso
        apply hex
        refine ⟨a, ?_, ?_⟩
        · rw [hl]; exact List.mem_cons_self a rest
        · exact hatt a (by rw [hl]; exact List.mem_cons_self a rest)
    simp [handlePublish, hempty, htext]

/-- C6 (witness): the rejection evaluated on the concrete empty draft. -/
theorem publish_empty_draft_no_request_witness :
    (handlePublish (ApiResult.err "down") none emptyDraftState).2 = [] ∧
    (handlePublish (ApiResult.err "down") none emptyDraftState).1.composerError.isSome
        = true :=
  publish_empty_draft_no_request emptyDraftState none (ApiResult.err "down")
    (by decide) (by decide)

/-! ## C4: the like toggle is optimistic and targeted. -/

/-- C4: `handleToggleLike` issues its events in the order "optimistic state
update, then network request": the trace starts with `setPosts` of the
optimistically toggled sequence followed by the like request (DELETE when
unliking, POST when liking); and the optimistic sequence flips `has_liked`
and adjusts `likes_count` by ±1 on every post with the given id while
returning every other post unchanged. -/
theorem toggleLike_optimistic_before_request (postId : String)
    (hasLiked : Bool) (server : ApiResult LikeResponse)
    (reload : ApiResult (List ApiPost)) (uid : Option String)
    (s : FeedPageState) :
    (∃ rest, (handleToggleLike postId hasLiked server reload uid s).2
        = LikeEvent.setPosts (optimisticToggle postId hasLiked s.posts)
          :: LikeEvent.request postId (if hasLiked then "DELETE" else "POST")
          :: rest) ∧
    ∀ i (h : i < s.posts.length),
      (optimisticToggle postId hasLiked s.posts)[i]?
        = some (if (s.posts[i]).id = postId then
            { s.posts[i] with
                has_liked := !hasLiked,
                likes_count := (s.posts[i]).likes_count
                  + (if hasLiked then -1 else 1) }
          else s.posts[i]) := by
  constructor
  · cases server with
    | ok resp =>
      exact ⟨[LikeEvent.setPosts
        (reconcileLike postId resp (optimisticToggle postId hasLiked s.posts))],
        rfl⟩
    | err m => exact ⟨[], rfl⟩
  · intro i h
    rw [optimisticToggle, List.getElem?_map, List.getElem?_eq_getElem h]
    rfl

/-- C4 (witness): the optimistic flip evaluated at the concrete one-post
feed: liking the unliked `samplePost` yields `has_liked = true` and
`likes_count = 1` before any request resolves. -/
theorem toggleLike_optimistic_before_request_witness :
    (optimisticToggle "p1" false sampleState.posts)[0]?
      = some { samplePost with has_liked := true, likes_count := 1 } := by
  have h := (toggleLike_optimistic_before_request "p1" false
    (ApiResult.err "down") (ApiResult.err "down") none sampleState).2 0
    (by decide)
  simpa [sampleState, samplePost] using h

/-! ## C5: server reconciliation overwrites the optimistic values. -/

/-- C5: when the like request succeeds, the matching post's final
`has_liked`, `likes_count` and `likes` equal the server-returned values,
whatever the previously applied optimistic values were. -/
theorem toggleLike_success_reconciles (postId : String) (hasLiked : Bool)
    (resp : LikeResponse) (reload : ApiResult (List ApiPost))
    (uid : Option String) (s : FeedPageState) (i : Nat)
    (h : i < s.posts.length) (hid : (s.posts[i]).id = postId) :
    ((handleToggleLike postId hasLiked (ApiResult.ok resp) reload uid s).1.posts)[i]?
      = some { s.posts[i] with
                 has_liked := resp.has_liked,
                 likes_count := resp.likes_count,
                 likes := resp.likes } := by
  show (reconcileLike postId resp (optimisticToggle postId hasLiked s.posts))[i]?
      = _
  rw [reconcileLike, optimisticToggle, List.getElem?_map, List.getElem?_map,
    List.getElem?_eq_getElem h]
  simp [hid]

/-- C5 (witness): reconciliation evaluated at the concrete one-post feed
with a server count of 7, which differs from the optimistic
`previous + 1 = 1`. -/
theorem toggleLike_success_reconciles_witness :
    ((handleToggleLike "p1" false (ApiResult.ok sampleLikeResponse)
        (ApiResult.err "down") none sampleState).1.posts)[0]?
      = some { samplePost with
                 has_liked := true, likes_count := 7,
                 likes := sampleLikeResponse.likes } ∧
    sampleLikeResponse.likes_count ≠ samplePost.likes_count + 1 := by
  have h := toggleLike_success_reconciles "p1" false sampleLikeResponse
    (ApiResult.err "down") none sampleState 0 (by decide) (by decide)
  exact ⟨by simpa [sampleState, samplePost, sampleLikeResponse] using h,
    by decide⟩

/-! ## C10: the optimistic decrement is not clamped at zero. -/

/-- C10: the optimistic step performs no lower-bound clamping: unliking a
post whose `likes_count` is 0 makes the locally visible count `-1`, and this
state is published (as the first trace event) before any reconciliation or
reload overwrites it. -/
theorem toggleLike_no_lower_clamp (postId : String)
    (server : ApiResult LikeResponse) (reload : ApiResult (List ApiPost))
    (uid : Option String) (s : FeedPageState) (i : Nat)
    (h : i < s.posts.length) (hid : (s.posts[i]).id = postId)
    (hcount : (s.posts[i]).likes_count = 0) :
    (∃ rest, (handleToggleLike postId true server reload uid s).2
        = LikeEvent.setPosts (optimisticToggle postId true s.posts) :: rest) ∧
    ∃ p, (optimisticToggle postId true s.posts)[i]? = some p ∧
      p.likes_count = -1 ∧ p.has_liked = false := by
  constructor
  · cases server with
    | ok resp =>
      exact ⟨LikeEvent.request postId "DELETE" :: [LikeEvent.setPosts
        (reconcileLike postId resp (optimisticToggle postId true s.posts))],
        rfl⟩
    | err m => exact ⟨[LikeEvent.request postId "DELETE"], rfl⟩
  · have hopt : (optimisticToggle postId true s.posts)[i]?
        = some { s.posts[i] with
                   has_liked := false,
                   likes_count := (s.posts[i]).likes_count + (-1) } := by
      rw [optimisticToggle, List.getElem?_map, List.getElem?_eq_getElem h]
      simp [hid]
    exact ⟨_, hopt, by simp [hcount], rfl⟩

/-- C10 (witness): unliking the concrete zero-like `samplePost` drives its
locally visible count to `-1`. -/
theorem toggleLike_no_lower_clamp_witness :
    ((optimisticToggle "p1" true sampleState.posts)[0]?).map FeedPost.likes_count
      = some (-1) := by
  obtain ⟨-, p, hp, hc, -⟩ := toggleLike_no_lower_clamp "p1"
    (ApiResult.err "down") (ApiResult.err "down") none sampleState 0
    (by decide) (by decide) (by decide)
  rw [hp]
  simp [hc]

/-! ## C8: per-file upload failures are isolated. -/

/-- C8: the upload loop settles each attachment of a selection from its own
file and its own network outcome alone: the batch appended to the tracked
attachments holds, at offset `i`, exactly the settlement of the i-th file;
a file whose signed-url step fails ends in status `error` carrying that
failure's message, a file whose binary transfer fails ends in status
`error` carrying "Upload failed", the loop never throws, and a file whose
upload succeeds ends in status `uploaded` with its remote descriptor —
regardless of the outcomes of its siblings. -/
theorem upload_failure_isolated (files : List SelectedFile)
    (ids previews : Nat → String) (outcomes : Nat → UploadOutcome)
    (s : FeedPageState) (i : Nat) (h : i < files.length) :
    ((handleFileSelect files ids previews outcomes s).1.attachments)[s.attachments.length + i]?
        = some (uploadFile files[i] (ids i) (previews i) (outcomes i)) ∧
    (∀ msg, outcomes i = UploadOutcome.metaFailure msg →
      (uploadFile files[i] (ids i) (previews i) (outcomes i)).status
          = AttachmentStatus.error ∧
      (uploadFile files[i] (ids i) (previews i) (outcomes i)).error = some msg) ∧
    (∀ meta, outcomes i = UploadOutcome.transferFailure meta →
      (uploadFile files[i] (ids i) (previews i) (outcomes i)).status
          = AttachmentStatus.error ∧
      (uploadFile files[i] (ids i) (previews i) (outcomes i)).error
          = some "Upload failed") ∧
    (∀ meta, outcomes i = UploadOutcome.success meta →
      (uploadFile files[i] (ids i) (previews i) (outcomes i)).status
          = AttachmentStatus.uploaded ∧
      (uploadFile files[i] (ids i) (previews i) (outcomes i)).remote ≠ none) := by
  have hne : ¬files.length = 0 := by omega
  refine ⟨?_, ?_, ?_, ?_⟩
  · rw [handleFileSelect, if_neg hne]
    show (s.attachments ++ _)[s.attachments.length + i]? = _
    rw [List.getElem?_append_right (Nat.le_add_right _ _)]
    simp only [Nat.add_sub_cancel_left]
    rw [List.getElem?_map, List.getElem?_enum, List.getElem?_eq_getElem h]
    rfl
  · intro msg hm
    rw [hm]
    exact ⟨rfl, rfl⟩
  · intro meta hm
    rw [hm]
    exact ⟨rfl, rfl⟩
  · intro meta hm
    rw [hm]
    exact ⟨rfl, by simp [uploadFile]⟩

/-- C8 (witness): on the concrete two-file selection whose first upload
fails at the signed-url step and whose second succeeds, the first tracked
attachment ends in `error` and its sibling still ends in `uploaded`. -/
theorem upload_failure_isolated_witness :
    (((handleFileSelect sampleFiles sampleIds samplePreviews sampleOutcomes
        emptyDraftState).1.attachments)[0]?).map Attachment.status
      = some AttachmentStatus.error ∧
    (((handleFileSelect sampleFiles sampleIds samplePreviews sampleOutcomes
        emptyDraftState).1.attachments)[1]?).map Attachment.status
      = some AttachmentStatus.uploaded := by
  have h0 := upload_failure_isolated sampleFiles sampleIds samplePreviews
    sampleOutcomes emptyDraftState 0 (by decide)
  have h1 := upload_failure_isolated sampleFiles sampleIds samplePreviews
    sampleOutcomes emptyDraftState 1 (by decide)
  constructor
  · have he := congrArg (Option.map Attachment.status) h0.1
    have hstat := (h0.2.1 "boom" (by decide)).1
    simpa [emptyDraftState, hstat] using he
  · have he := congrArg (Option.map Attachment.status) h1.1
    have hstat := (h1.2.2.2
      { upload_url := "https://u/2", public_url := none, bucket := "media",
        file_url := "https://f/2" } (by decide)).1
    simpa [emptyDraftState, hstat] using he

/-! ## C9: tracked attachments always hold a terminal status. -/

/-- C9: the upload loop settles every file before the single batch append,
so `handleFileSelect` preserves the invariant that no tracked attachment
has status `uploading` (an in-flight upload is never observable in the
attachments state); and the call's network trace is the in-order
concatenation of the per-file request sequences — the files of one
selection are uploaded one after the other, never interleaved. -/
theorem handleFileSelect_terminal (files : List SelectedFile)
    (ids previews : Nat → String) (outcomes : Nat → UploadOutcome)
    (s : FeedPageState)
    (hs : ∀ a ∈ s.attachments, a.status ≠ AttachmentStatus.uploading) :
    (∀ a ∈ (handleFileSelect files ids previews outcomes s).1.attachments,
        a.status ≠ AttachmentStatus.uploading) ∧
    (handleFileSelect files ids previews outcomes s).2
      = (files.enum.map fun fi => uploadEvents fi.2 (outcomes fi.1)).flatten := by
  by_cases hf : files.length = 0
  · have : files = [] := List.length_eq_zero.1 hf
    subst this
    rw [handleFileSelect]
    exact ⟨hs, rfl⟩
  · constructor
    · intro a ha
      rw [handleFileSelect, if_neg hf] at ha
      have ha2 : a ∈ s.attachments ∨
          a ∈ files.enum.map fun fi =>
            uploadFile fi.2 (ids fi.1) (previews fi.1) (outcomes fi.1) :=
        List.mem_append.1 ha
      rcases ha2 with ha2 | ha2
      · exact hs a ha2
      · obtain ⟨fi, -, rfl⟩ := List.mem_map.1 ha2
        cases houtcome : outcomes fi.1 <;> simp [uploadFile, houtcome]
    · rw [handleFileSelect, if_neg hf]

/-- C9 (witness): after the concrete two-file selection settles, every
tracked attachment has a terminal status. -/
theorem handleFileSelect_terminal_witness :
    ((handleFileSelect sampleFiles sampleIds samplePreviews sampleOutcomes
        emptyDraftState).1.attachments).all
      (fun a => a.status != AttachmentStatus.uploading) = true := by
  have h := handleFileSelect_terminal sampleFiles sampleIds samplePreviews
    sampleOutcomes emptyDraftState (by decide)
  rw [List.all_eq_true]
  intro a ha
  simpa using h.1 a ha

end ZComu
